import Mathlib

/-!
Shallow embedding of the planar quadrotor dynamics core from
`2-Planar-Quadrotor.ipynb` (classes `Params` and `PlanarQuadrotorDynamics`,
function `dRot3`), together with the pieces of `quadrotor/dynamics.py`
(the state-vector codec and the held `state` / `dt` of the dynamics base
class) that the notebook uses but that are not part of the given sources;
those pieces are modelled from the specification and marked as such.

Machine floats are embedded as real numbers; the scipy `solve_ivp` call is
embedded as an explicit integrator argument (a function from a derivative
function, an interval and an initial vector to the final vector), and the
continuous-time claims are settled against exact solutions of the ODE that
the code hands to the solver.
-/

noncomputable section

/-- A 3-vector of reals (embeds a length-3 `np.ndarray`). -/
structure Vec3 where
  x : ℝ
  y : ℝ
  z : ℝ
deriving DecidableEq

/-- A quaternion in xyzw storage order, as returned by `sym.Rot3.to_storage`
(see the comment in `dRot3`: "xyzw storage"). A value of this type also
represents a quaternion rate, which is not unit-norm. -/
structure Quat where
  x : ℝ
  y : ℝ
  z : ℝ
  w : ℝ
deriving DecidableEq

/-- `sym.Rot3.to_storage`: the raw xyzw component vector of the quaternion. -/
def Quat.to_storage (q : Quat) : Fin 4 → ℝ := ![q.x, q.y, q.z, q.w]

/-- `sym.Rot3.from_storage`: rebuild a quaternion from raw xyzw components. -/
def Quat.from_storage (v : Fin 4 → ℝ) : Quat := ⟨v 0, v 1, v 2, v 3⟩

/-- `QuadrotorState` from `quadrotor/dynamics.py`: position and velocity in the
world frame, body-to-world orientation, body-frame angular velocity. The same
shape is used for the state derivative (the notebook populates a
`QuadrotorState` with derivatives of each field). -/
structure QuadrotorState where
  position : Vec3
  velocity : Vec3
  orientation : Quat
  angular_velocity : Vec3
deriving DecidableEq

/-- The matrix `G` built inside `dRot3` from the xyzw components
`(q0, q1, q2, q3)` of the quaternion:
`G = [[q3, q2, -q1, -q0], [-q2, q3, q0, -q1], [q1, -q0, q3, -q2]]`. -/
def Gmat (R : Quat) : Matrix (Fin 3) (Fin 4) ℝ :=
  !![R.w, R.z, -R.y, -R.x;
    -R.z, R.w, R.x, -R.y;
     R.y, -R.x, R.w, -R.z]

/-- `dRot3` from the notebook: the quaternion time-derivative
`quat_dot = (G.T @ omega) / 2`, returned through `Rot3.from_storage`. -/
def dRot3 (R : Quat) (omega : Vec3) : Quat :=
  Quat.from_storage (fun i => (Gmat R).transpose.mulVec ![omega.x, omega.y, omega.z] i / 2)

/-- The `Params` dataclass from the notebook, with its default field values
(Skydio X2 constants). The dataclass has no `__post_init__` and performs no
validation: construction stores the given field values verbatim. -/
structure Params where
  mass : ℝ := 1.352
  inertia : ℝ := 9.8e-2
  rotor_diameter : ℝ := 10 * 0.0254
  static_thrust_coefficient : ℝ := 0.14553
  static_torque_coefficient : ℝ := 0.01047
  arm_length : ℝ := 0.3814 / 2.0
  g : ℝ := 9.80665
  rho : ℝ := 1.225

/-- `Params.rotor_model`: `rho * static_coefficient * rotor_diameter^4 / (4 π²)`. -/
def Params.rotor_model (p : Params) (static_coefficient : ℝ) : ℝ :=
  p.rho * static_coefficient * p.rotor_diameter ^ 4 / (4 * Real.pi ^ 2)

/-- `Params.k_thrust` property. -/
def Params.k_thrust (p : Params) : ℝ := p.rotor_model p.static_thrust_coefficient

/-- `Params.k_torque` property. -/
def Params.k_torque (p : Params) : ℝ := p.rotor_model p.static_torque_coefficient

/-- Modelled from the spec: `sym.Rot3.to_yaw_pitch_roll` is library code not in
the given sources; the spec only requires "Extract pitch angle φ from
orientation (the single rotational DOF in the planar reduction)". For an xyzw
quaternion the ZYX pitch angle is `arcsin (2 (w y − x z))`. None of the
theorems below depend on this formula. -/
def pitch (q : Quat) : ℝ := Real.arcsin (2 * (q.w * q.y - q.x * q.z))

/-- `PlanarQuadrotorDynamics.rotor_thrust_model`, per rotor:
`k_thrust * rotor_rate ** 2` (the notebook applies it elementwise to the
array of rates; this is the scalar component). The module-level global `p`
is passed explicitly. -/
def rotor_thrust_model (p : Params) (rotor_rate : ℝ) : ℝ :=
  p.k_thrust * rotor_rate ^ 2

/-- `PlanarQuadrotorDynamics.state_derivative`: pitch `phi` from the
orientation, world-frame acceleration
`(-sin(phi)/mass * u1, 0, cos(phi)/mass * u1 - g)`, angular acceleration
`(0, u2/inertia, 0)`, assembled so that position-rate is the velocity and
orientation-rate is `dRot3` of the orientation and angular velocity. -/
def state_derivative (p : Params) (state : QuadrotorState) (u1 u2 : ℝ) :
    QuadrotorState :=
  let phi := pitch state.orientation
  let accel : Vec3 :=
    ⟨-Real.sin phi / p.mass * u1, 0, Real.cos phi / p.mass * u1 - p.g⟩
  let angular_accel : Vec3 := ⟨0, u2 / p.inertia, 0⟩
  { position := state.velocity
    velocity := accel
    orientation := dRot3 state.orientation state.angular_velocity
    angular_velocity := angular_accel }

/-- Modelled from the spec: `QuadrotorState.to_state_vector` lives in
`quadrotor/dynamics.py`, which is not among the given sources. Per the spec
(StateVectorCodec) it flattens the state into a numeric vector in the fixed
field order position, velocity, orientation (xyzw components), angular
velocity — 13 entries. -/
def to_state_vector (s : QuadrotorState) : Fin 13 → ℝ :=
  ![s.position.x, s.position.y, s.position.z,
    s.velocity.x, s.velocity.y, s.velocity.z,
    s.orientation.x, s.orientation.y, s.orientation.z, s.orientation.w,
    s.angular_velocity.x, s.angular_velocity.y, s.angular_velocity.z]

/-- Modelled from the spec: `QuadrotorState.from_state_vector`, inverse of
`to_state_vector`, reading the 13 entries back in the same fixed order. -/
def from_state_vector (v : Fin 13 → ℝ) : QuadrotorState :=
  { position := ⟨v 0, v 1, v 2⟩
    velocity := ⟨v 3, v 4, v 5⟩
    orientation := ⟨v 6, v 7, v 8, v 9⟩
    angular_velocity := ⟨v 10, v 11, v 12⟩ }

/-- The type of the embedded ODE solver: given a derivative function
`f : time → state-vector → state-vector`, the endpoints `t0 t1` of the
integration interval, and the initial vector `y0`, produce the solution
vector at `t1`. `sp.integrate.solve_ivp(fun, t_span=[0, dt], y0, 'RK45')`
followed by taking the last column of `solution.y` is one such function;
it is scipy library code, so `step` below is parameterised over it. -/
def Integrator : Type :=
  (ℝ → (Fin 13 → ℝ) → (Fin 13 → ℝ)) → ℝ → ℝ → (Fin 13 → ℝ) → (Fin 13 → ℝ)

/-- `PlanarQuadrotorDynamics.step`: thrusts `F1, F2` of the first two rotor
rates, generalized inputs `u1 = F1 + F2` and `u2 = (F1 - F2) * arm_length`,
then integration of the vectorized `state_derivative` over `[0, dt]` from the
flattened held state, the result unflattened as the next state. The held
`self.state` and `self.dt` of the base class are explicit arguments, and the
next state is returned (the code assigns it back to `self.state`); the time
argument `t` is embedded even though the body never reads it. -/
def step (p : Params) (dt : ℝ) (integrate : Integrator) (state : QuadrotorState)
    (t : ℝ) (rotor_rates : Fin 4 → ℝ) : QuadrotorState :=
  let F1 := rotor_thrust_model p (rotor_rates 0)
  let F2 := rotor_thrust_model p (rotor_rates 1)
  let u1 := F1 + F2
  let u2 := (F1 - F2) * p.arm_length
  let state_derivative_fn : ℝ → (Fin 13 → ℝ) → (Fin 13 → ℝ) := fun _t sv =>
    to_state_vector (state_derivative p (from_state_vector sv) u1 u2)
  let state_vector := to_state_vector state
  from_state_vector (integrate state_derivative_fn 0 dt state_vector)

/-- Repeated stepping: thread the held state through a list of
(time, rotor-rates) commands, recording each returned state — the sequence of
`dynamics.step` outputs the simulation loop collects. -/
def runSteps (p : Params) (dt : ℝ) (integrate : Integrator) :
    QuadrotorState → List (ℝ × (Fin 4 → ℝ)) → List QuadrotorState
  | _, [] => []
  | s, (t, cmd) :: rest =>
      let s1 := step p dt integrate s t cmd
      s1 :: runSteps p dt integrate s1 rest

/-- Specification-side definition (for the refinement claim about `dRot3`):
the 4×4 skew-symmetric embedding `Ω(ω)` of a body-frame angular velocity in
the xyzw component convention, so that the quaternion-rate kinematics read
`dq/dt = ½ · Ω(ω) · q`. -/
def Omega (omega : Vec3) : Matrix (Fin 4) (Fin 4) ℝ :=
  !![0, omega.z, -omega.y, omega.x;
    -omega.z, 0, omega.x, omega.y;
     omega.y, -omega.x, 0, omega.z;
    -omega.x, -omega.y, -omega.z, 0]

/-- The all-zero rotor command (what `EmptyController` issues). -/
def zeroCmd : Fin 4 → ℝ := ![0, 0, 0, 0]

/-- The exact solution of the free-fall initial value problem: from the
origin, at rest, level (zero-rotation) orientation, zero angular velocity,
under zero rotor rates the vehicle keeps its orientation and drops with
velocity `-g t` and position `-g t² / 2`. -/
def freeFallTraj (p : Params) (t : ℝ) : QuadrotorState :=
  { position := ⟨0, 0, -(p.g * t ^ 2) / 2⟩
    velocity := ⟨0, 0, -(p.g * t)⟩
    orientation := ⟨0, 0, 0, 1⟩
    angular_velocity := ⟨0, 0, 0⟩ }

/-- A concrete integrator (one explicit Euler step over the whole interval),
used to instantiate theorems that hold for every integrator. -/
def eulerIntegrate : Integrator := fun f t0 t1 y0 => fun i =>
  y0 i + (t1 - t0) * f t0 y0 i

/-- A concrete state used to instantiate universally quantified theorems. -/
def restState : QuadrotorState :=
  { position := ⟨0, 0, 0⟩
    velocity := ⟨0, 0, 0⟩
    orientation := ⟨0, 0, 0, 1⟩
    angular_velocity := ⟨0, 0, 0⟩ }

/-- Decoding after encoding is the identity on states (helper shared by the
round-trip and zero-duration-step theorems). -/
theorem from_state_vector_to_state_vector (s : QuadrotorState) :
    from_state_vector (to_state_vector s) = s := rfl

end

/-- Claim C1: for every state and generalized inputs `u1, u2`,
`state_derivative` returns a derivative whose position-rate is the current
velocity, whose velocity-rate is the world-frame acceleration
`(-sin(φ)·u1/mass, 0, cos(φ)·u1/mass - g)` with `φ` the pitch extracted from
the orientation, whose orientation-rate is `dRot3` of the orientation and
angular velocity, and whose angular-velocity-rate is `(0, u2/inertia, 0)`. -/
theorem state_derivative_spec (p : Params) (s : QuadrotorState) (u1 u2 : ℝ) :
    state_derivative p s u1 u2 =
      { position := s.velocity
        velocity := ⟨-Real.sin (pitch s.orientation) * u1 / p.mass, 0,
                     Real.cos (pitch s.orientation) * u1 / p.mass - p.g⟩
        orientation := dRot3 s.orientation s.angular_velocity
        angular_velocity := ⟨0, u2 / p.inertia, 0⟩ } := by
  have hx : -Real.sin (pitch s.orientation) / p.mass * u1
      = -Real.sin (pitch s.orientation) * u1 / p.mass := by ring
  have hz : Real.cos (pitch s.orientation) / p.mass * u1 - p.g
      = Real.cos (pitch s.orientation) * u1 / p.mass - p.g := by ring
  simp only [state_derivative]
  rw [hx, hz]

/-- Claim C2: `step` consumes only the first two commanded rotor rates; each
rotor thrust is the quadratic model `k_thrust · rate²` (total and
spin-direction-agnostic), and the generalized inputs are the total thrust
`u1 = F1 + F2` and the net torque `u2 = (F1 - F2) · arm_length` handed to the
vectorized derivative that is integrated. -/
theorem step_generalized_inputs (p : Params) (r dt : ℝ) (integrate : Integrator)
    (s : QuadrotorState) (t : ℝ) (rr : Fin 4 → ℝ) (a b : ℝ) :
    rotor_thrust_model p r = p.k_thrust * r ^ 2 ∧
    rotor_thrust_model p (-r) = rotor_thrust_model p r ∧
    step p dt integrate s t rr = step p dt integrate s t ![rr 0, rr 1, a, b] ∧
    step p dt integrate s t rr =
      from_state_vector (integrate
        (fun _τ sv => to_state_vector (state_derivative p (from_state_vector sv)
          (rotor_thrust_model p (rr 0) + rotor_thrust_model p (rr 1))
          ((rotor_thrust_model p (rr 0) - rotor_thrust_model p (rr 1)) * p.arm_length)))
        0 dt (to_state_vector s)) := by
  refine ⟨rfl, by simp [rotor_thrust_model], ?_, rfl⟩
  simp only [step, Matrix.cons_val_zero, Matrix.cons_val_one, Matrix.head_cons]

/-- Claim C4: decoding the encoding of a state (the composition
`from_state_vector ∘ to_state_vector` that `step` uses to exchange state with
the ODE solver) reproduces the state exactly — in particular within the
spec's 1e-9 per-field tolerance — preserving the fixed field ordering. -/
theorem state_vector_roundtrip (s : QuadrotorState) :
    from_state_vector (to_state_vector s) = s :=
  from_state_vector_to_state_vector s

/-- Claim C6 counterexample: constructing `Params` with non-positive mass does
not raise a configuration error — the dataclass stores the invalid value and
yields a usable `Params` with `mass = -1`, contradicting fail-fast
construction-time validation. -/
theorem params_accept_nonpositive_mass :
    ({ mass := -1 } : Params).mass = -1 ∧
    ¬ (0 < ({ mass := -1 } : Params).mass) := by
  exact ⟨rfl, by norm_num⟩

/-- Claim C6 (amended): `Params` is an unvalidated dataclass — construction
accepts any field values verbatim, including non-positive mass and inertia,
and `step` unconditionally hands the flattened state to the integrator with
no malformed-state check beforehand. -/
theorem params_construction_unvalidated (m i d ct cq a g rho : ℝ) :
    (Params.mk m i d ct cq a g rho).mass = m ∧
    (Params.mk m i d ct cq a g rho).inertia = i ∧
    (Params.mk m i d ct cq a g rho).rotor_diameter = d ∧
    (Params.mk m i d ct cq a g rho).static_thrust_coefficient = ct ∧
    (Params.mk m i d ct cq a g rho).static_torque_coefficient = cq ∧
    (Params.mk m i d ct cq a g rho).arm_length = a ∧
    (Params.mk m i d ct cq a g rho).g = g ∧
    (Params.mk m i d ct cq a g rho).rho = rho ∧
    (∀ p dt integrate s t rr, step p dt integrate s t rr =
      from_state_vector (integrate
        (fun _τ sv => to_state_vector (state_derivative p (from_state_vector sv)
          (rotor_thrust_model p (rr 0) + rotor_thrust_model p (rr 1))
          ((rotor_thrust_model p (rr 0) - rotor_thrust_model p (rr 1)) * p.arm_length)))
        0 dt (to_state_vector s))) :=
  ⟨rfl, rfl, rfl, rfl, rfl, rfl, rfl, rfl, fun _ _ _ _ _ _ => rfl⟩

/-- Claim C10: `step` ignores its time argument entirely — from the same held
state and command, stepping at any two times produces identical next
states. -/
theorem step_ignores_time (p : Params) (dt : ℝ) (integrate : Integrator)
    (s : QuadrotorState) (t1 t2 : ℝ) (rr : Fin 4 → ℝ) :
    step p dt integrate s t1 rr = step p dt integrate s t2 rr := rfl

/-- Claim C3: for every xyzw quaternion and body-frame angular velocity,
`dRot3` computes `(Gᵀ·ω)/2` with `G` the matrix built from the quaternion
components, and the result satisfies the quaternion-rate kinematics identity
`dq/dt = ½ · Ω(ω) · q` with `Ω(ω)` the 4×4 skew-symmetric embedding of ω. -/
theorem dRot3_quaternion_kinematics (R : Quat) (omega : Vec3) :
    dRot3 R omega =
      Quat.from_storage (fun i =>
        (Gmat R).transpose.mulVec ![omega.x, omega.y, omega.z] i / 2) ∧
    (dRot3 R omega).to_storage =
      (fun i => (Omega omega).mulVec R.to_storage i / 2) ∧
    (Omega omega).transpose = -(Omega omega) := by
  refine ⟨rfl, ?_, ?_⟩
  · funext i
    fin_cases i <;>
      · simp [dRot3, Quat.to_storage, Quat.from_storage, Gmat, Omega,
          Matrix.mulVec, Matrix.dotProduct, Fin.sum_univ_succ,
          Matrix.transpose_apply]
        ring
  · funext i j
    fin_cases i <;> fin_cases j <;>
      simp [Omega, Matrix.transpose_apply, Matrix.neg_apply]

/-- Claim C7: the step operation is a deterministic function of the
parameters, the held state, the timestep, the integrator and the command
sequence — two runs with identical inputs produce identical output state
sequences. -/
theorem runSteps_deterministic (p1 p2 : Params) (dt1 dt2 : ℝ)
    (i1 i2 : Integrator) (s1 s2 : QuadrotorState)
    (c1 c2 : List (ℝ × (Fin 4 → ℝ)))
    (hp : p1 = p2) (hdt : dt1 = dt2) (hi : i1 = i2) (hs : s1 = s2)
    (hc : c1 = c2) :
    runSteps p1 dt1 i1 s1 c1 = runSteps p2 dt2 i2 s2 c2 := by
  subst hp; subst hdt; subst hi; subst hs; subst hc; rfl

/-- Witness for C7: two identical one-command runs (default parameters, the
Euler integrator, the rest state, zero rates) produce identical outputs. -/
theorem runSteps_deterministic_witness :
    runSteps ({} : Params) 1 eulerIntegrate restState [(0, zeroCmd)] =
      runSteps ({} : Params) 1 eulerIntegrate restState [(0, zeroCmd)] :=
  runSteps_deterministic ({} : Params) ({} : Params) 1 1 eulerIntegrate
    eulerIntegrate restState restState [(0, zeroCmd)] [(0, zeroCmd)]
    rfl rfl rfl rfl rfl

/-- Claim C8: when the integrator is exact on zero-length intervals (the
`dt → 0` limit of integrating over `[0, dt]`), stepping with `dt = 0` returns
the held state unchanged. -/
theorem step_zero_duration_identity (p : Params) (integrate : Integrator)
    (s : QuadrotorState) (t : ℝ) (rr : Fin 4 → ℝ)
    (h : ∀ f t0 y0, integrate f t0 t0 y0 = y0) :
    step p 0 integrate s t rr = s := by
  show from_state_vector (integrate
    (fun _τ sv => to_state_vector (state_derivative p (from_state_vector sv)
      (rotor_thrust_model p (rr 0) + rotor_thrust_model p (rr 1))
      ((rotor_thrust_model p (rr 0) - rotor_thrust_model p (rr 1)) * p.arm_length)))
    0 0 (to_state_vector s)) = s
  rw [h]
  exact from_state_vector_to_state_vector s

/-- Witness for C8: the Euler integrator is exact on zero-length intervals,
and the zero-duration step from the rest state returns it unchanged. -/
theorem step_zero_duration_identity_witness :
    (∀ f t0 y0, eulerIntegrate f t0 t0 y0 = y0) ∧
    step ({} : Params) 0 eulerIntegrate restState 0 zeroCmd = restState := by
  have h : ∀ f t0 y0, eulerIntegrate f t0 t0 y0 = y0 := fun f t0 y0 =>
    funext fun i => by simp [eulerIntegrate]
  exact ⟨h, step_zero_duration_identity ({} : Params) eulerIntegrate restState 0 zeroCmd h⟩

/-- Claim C9: the derivative's velocity-rate has y-component exactly 0 and
its angular-velocity-rate has x- and z-components exactly 0, whatever the
state and inputs; consequently `velocity.y`, `angular_velocity.x` and
`angular_velocity.z` are conserved along any trajectory of the continuous
dynamics. -/
theorem planar_conservation (p : Params) (u1 u2 : ℝ) :
    (∀ s, (state_derivative p s u1 u2).velocity.y = 0 ∧
          (state_derivative p s u1 u2).angular_velocity.x = 0 ∧
          (state_derivative p s u1 u2).angular_velocity.z = 0) ∧
    (∀ traj : ℝ → QuadrotorState,
      (∀ t, HasDerivAt (fun τ => (traj τ).velocity.y)
          ((state_derivative p (traj t) u1 u2).velocity.y) t) →
      ∀ t, (traj t).velocity.y = (traj 0).velocity.y) ∧
    (∀ traj : ℝ → QuadrotorState,
      (∀ t, HasDerivAt (fun τ => (traj τ).angular_velocity.x)
          ((state_derivative p (traj t) u1 u2).angular_velocity.x) t) →
      ∀ t, (traj t).angular_velocity.x = (traj 0).angular_velocity.x) ∧
    (∀ traj : ℝ → QuadrotorState,
      (∀ t, HasDerivAt (fun τ => (traj τ).angular_velocity.z)
          ((state_derivative p (traj t) u1 u2).angular_velocity.z) t) →
      ∀ t, (traj t).angular_velocity.z = (traj 0).angular_velocity.z) := by
  have hconst : ∀ f : ℝ → ℝ, (∀ t, HasDerivAt f 0 t) → ∀ t, f t = f 0 := by
    intro f hf t
    exact is_const_of_deriv_eq_zero (fun x => (hf x).differentiableAt)
      (fun x => (hf x).deriv) t 0
  refine ⟨fun s => ⟨rfl, rfl, rfl⟩, ?_, ?_, ?_⟩ <;>
    · intro traj hd
      exact hconst _ (fun t => hd t)

/-- Witness for C9: along the constant rest-state trajectory (which solves
the conserved-component equations for the default parameters and zero
inputs), `velocity.y` at time 1 equals its value at time 0. -/
theorem planar_conservation_witness :
    ((fun _ : ℝ => restState) 1).velocity.y
      = ((fun _ : ℝ => restState) 0).velocity.y :=
  (planar_conservation ({} : Params) 0 0).2.1 (fun _ => restState)
    (fun t => hasDerivAt_const t 0) 1

/-- Claim C5: starting from rest (zero velocity and angular velocity, level
orientation, position at the origin) under the all-zero rotor command, the
free-fall trajectory solves, at every time, the exact ODE that `step` hands
to the integrator (componentwise on the flattened state, with the generalized
inputs computed from the zero rates through the thrust model), and it
satisfies `velocity.z = -g·t` and `position.z = -(1/2)·g·t²` while the
orientation and angular velocity keep their initial zero-rotation values. -/
theorem free_fall (p : Params) (t : ℝ) :
    freeFallTraj p 0 = restState ∧
    (∀ i : Fin 13,
      HasDerivAt (fun τ => to_state_vector (freeFallTraj p τ) i)
        (to_state_vector (state_derivative p (freeFallTraj p t)
          (rotor_thrust_model p (zeroCmd 0) + rotor_thrust_model p (zeroCmd 1))
          ((rotor_thrust_model p (zeroCmd 0) - rotor_thrust_model p (zeroCmd 1))
            * p.arm_length)) i) t) ∧
    (freeFallTraj p t).velocity.z = -p.g * t ∧
    (freeFallTraj p t).position.z = -(1 / 2) * p.g * t ^ 2 ∧
    (freeFallTraj p t).orientation = ⟨0, 0, 0, 1⟩ ∧
    (freeFallTraj p t).angular_velocity = ⟨0, 0, 0⟩ := by
  have hu1 : rotor_thrust_model p (zeroCmd 0) + rotor_thrust_model p (zeroCmd 1)
      = 0 := by
    simp [rotor_thrust_model, zeroCmd]
  have hu2 : (rotor_thrust_model p (zeroCmd 0) - rotor_thrust_model p (zeroCmd 1))
      * p.arm_length = 0 := by
    simp [rotor_thrust_model, zeroCmd]
  have hsd : state_derivative p (freeFallTraj p t) 0 0 =
      { position := ⟨0, 0, -(p.g * t)⟩
        velocity := ⟨0, 0, -p.g⟩
        orientation := ⟨0, 0, 0, 0⟩
        angular_velocity := ⟨0, 0, 0⟩ } := by
    simp [state_derivative, freeFallTraj, dRot3, Gmat, Quat.from_storage,
      Matrix.mulVec, Matrix.dotProduct, Fin.sum_univ_succ,
      Matrix.transpose_apply]
  refine ⟨?_, ?_, ?_, ?_, rfl, rfl⟩
  · simp [freeFallTraj, restState]
  · intro i
    rw [hu1, hu2, hsd]
    fin_cases i
    · exact hasDerivAt_const t 0
    · exact hasDerivAt_const t 0
    · show HasDerivAt (fun τ => -(p.g * τ ^ 2) / 2) (-(p.g * t)) t
      have h := ((HasDerivAt.const_mul p.g (hasDerivAt_pow 2 t)).neg).div_const 2
      convert h using 1
      push_cast
      ring
    · exact hasDerivAt_const t 0
    · exact hasDerivAt_const t 0
    · show HasDerivAt (fun τ => -(p.g * τ)) (-p.g) t
      have h := (HasDerivAt.const_mul p.g (hasDerivAt_id t)).neg
      convert h using 1
      ring
    · exact hasDerivAt_const t 0
    · exact hasDerivAt_const t 0
    · exact hasDerivAt_const t 0
    · exact hasDerivAt_const t 1
    · exact hasDerivAt_const t 0
    · exact hasDerivAt_const t 0
    · exact hasDerivAt_const t 0
  · show -(p.g * t) = -p.g * t
    ring
  · show -(p.g * t ^ 2) / 2 = -(1 / 2) * p.g * t ^ 2
    ring
